import Mathlib

/-!
Shallow embedding of the mboxctl client (src/mboxctl.c) of the mboxbridge
repository: the D-Bus command/response protocol between the `mboxctl`
command-line client and the mailbox daemon.

The embedding models, from the source:
  - the wire message structure `mbox_dbus_msg` (command byte + argument bytes);
  - the error taxonomy `parse_error`;
  - the RPC exchange `send_dbus_msg` (reply-length validation and the copy of
    exactly `resp->num_args` bytes into the caller's buffer);
  - the command handlers (`handle_cmd_ping`, `handle_cmd_status`,
    `handle_cmd_reset`, `handle_cmd_suspend`, `handle_cmd_resume`,
    `handle_cmd_modified`), each returning its `rc` together with the text it
    prints on stdout/stderr and the requests it transmitted;
  - `main`'s exit-code plumbing and the bus-handle lifecycle events.

The transport (sd-bus) is external; it is modelled as a function from the
transmitted request to either a failure code or a reply (status byte plus
argument byte buffer), exactly the two outcomes `sd_bus_call` +
`sd_bus_message_read` can produce for this client.
-/

namespace Mboxctl

/-- Modelled from the spec: the numeric return/status codes of `mbox_dbus.h`,
which is not among the given sources (only `mboxctl.c` includes it). The spec
fixes the closed set {Success, InternalError, InvalidRequest, RejectedByDaemon,
HardwareError} and says exact numeric values are an implementation choice that
must be consistent between client and daemon; Success must be 0 because the
client's exit code is `-status` and the spec requires exit code 0 on success.
We use the consecutive values 0..4. -/
def DBUS_SUCCESS : Nat := 0

/-- Modelled from the spec: InternalError return code (see `DBUS_SUCCESS`). -/
def E_DBUS_INTERNAL : Nat := 1

/-- Modelled from the spec: InvalidRequest return code (see `DBUS_SUCCESS`). -/
def E_DBUS_INVAL : Nat := 2

/-- Modelled from the spec: RejectedByDaemon return code (see `DBUS_SUCCESS`). -/
def E_DBUS_REJECTED : Nat := 3

/-- Modelled from the spec: HardwareError return code (see `DBUS_SUCCESS`). -/
def E_DBUS_HARDWARE : Nat := 4

/-- Modelled from the spec: command byte for Ping (spec table: Ping=0). -/
def DBUS_C_PING : Nat := 0

/-- Modelled from the spec: command byte for Status (spec table: Status=1). -/
def DBUS_C_STATUS : Nat := 1

/-- Modelled from the spec: command byte for Reset (spec table: Reset=2). -/
def DBUS_C_RESET : Nat := 2

/-- Modelled from the spec: command byte for Suspend (numeric value an
implementation choice per the spec). -/
def DBUS_C_SUSPEND : Nat := 3

/-- Modelled from the spec: command byte for Resume (numeric value an
implementation choice per the spec). -/
def DBUS_C_RESUME : Nat := 4

/-- Modelled from the spec: command byte for NotifyModified (numeric value an
implementation choice per the spec). -/
def DBUS_C_MODIFIED : Nat := 5

/-- Modelled from the spec: Status payload value Active (spec: Active (0)). -/
def STATUS_ACTIVE : Nat := 0

/-- Modelled from the spec: Status payload value Suspended (spec:
Suspended (1)). -/
def STATUS_SUSPENDED : Nat := 1

/-- Modelled from the spec: Resume argument byte, flash not modified (spec:
0 = flash not modified). -/
def RESUME_NOT_MODIFIED : Nat := 0

/-- Modelled from the spec: Resume argument byte, flash modified (spec:
1 = flash modified since last resume). -/
def RESUME_FLASH_MODIFIED : Nat := 1

/-- `struct mbox_dbus_msg`: one command byte and a byte-argument buffer
(`num_args` is the buffer length, here `args.length`). Bytes are modelled as
`Nat` values. -/
structure MboxDbusMsg where
  cmd : Nat
  args : List Nat
  deriving Repr, DecidableEq

/-- Outcome of the sd-bus transport for one transmitted request: either some
stage of `sd_bus_message_new_method_call` / `sd_bus_message_append` /
`sd_bus_call` / `sd_bus_message_read` fails with a negative code, or a reply
arrives carrying a response code byte and an argument byte buffer. -/
inductive TransportReply where
  | failed (rc : Int)
  | replied (cmd : Nat) (buf : List Nat)
  deriving Repr, DecidableEq

/-- The daemon-plus-transport, seen from the client: a function from the
transmitted request message to the transport outcome. -/
def Daemon : Type := MboxDbusMsg → TransportReply

/-- `parse_error` (mboxctl.c:71-87): maps a raw status value to its
human-readable phrase; the `default` arm of the C `switch` makes it total. -/
def parse_error (error_val : Int) : String :=
  if error_val = (DBUS_SUCCESS : Int) then "Success"
  else if error_val = (E_DBUS_INTERNAL : Int) then "Failed - Internal Error"
  else if error_val = (E_DBUS_INVAL : Int) then "Failed - Invalid Command or Request"
  else if error_val = (E_DBUS_REJECTED : Int) then "Failed - Request Rejected by Daemon"
  else if error_val = (E_DBUS_HARDWARE : Int) then "Failed - BMC Hardware Error"
  else "Failed - Unknown Error"

/-- `send_dbus_msg` (mboxctl.c:102-175): transmit `msg`, wait for the reply,
then validate it. `expected` is the caller-set `resp->num_args`. If the reply
buffer length `sz` satisfies `sz < resp->num_args` the call fails with
`-E_DBUS_INTERNAL` after printing the insufficient-response-args diagnostic;
otherwise exactly `resp->num_args` bytes are copied out of the reply buffer
(`memcpy(resp->args, buf, resp->num_args)`, i.e. `buf.take expected`). A
transport failure propagates its negative code unchanged. The returned pair on
success is the filled `resp`: response code byte and copied argument bytes. -/
def send_dbus_msg (d : Daemon) (msg : MboxDbusMsg) (expected : Nat) :
    Except Int MboxDbusMsg :=
  match d msg with
  | TransportReply.failed rc => Except.error rc
  | TransportReply.replied cmd buf =>
    if buf.length < expected then
      Except.error (-(E_DBUS_INTERNAL : Int))
    else
      Except.ok ⟨cmd, buf.take expected⟩

/-- Result of one command handler: the `rc` it returns to `parse_cmdline`,
the lines it printed on stdout and stderr, and the request messages it handed
to `send_dbus_msg`. -/
structure CmdOutcome where
  rc : Int
  stdout : List String
  stderr : List String
  sent : List MboxDbusMsg
  deriving Repr, DecidableEq

/-- `handle_cmd_ping` (mboxctl.c:177-195): send a Ping request with no
arguments, expect no response arguments; on success return `-resp.cmd` and
print the taxonomy phrase. -/
def handle_cmd_ping (d : Daemon) : CmdOutcome :=
  let msg : MboxDbusMsg := ⟨DBUS_C_PING, []⟩
  match send_dbus_msg d msg 0 with
  | Except.error rc => ⟨rc, [], ["Failed to send ping command"], [msg]⟩
  | Except.ok resp =>
    ⟨-(resp.cmd : Int), ["Ping: " ++ parse_error (resp.cmd : Int)], [], [msg]⟩

/-- `handle_cmd_status` (mboxctl.c:197-224): send a Status request expecting a
one-byte payload (`resp.num_args = 1`). On a non-Success status print the
failure line on stderr; on Success report Active when the payload byte equals
`STATUS_ACTIVE` and Suspended for every other byte value. -/
def handle_cmd_status (d : Daemon) : CmdOutcome :=
  let msg : MboxDbusMsg := ⟨DBUS_C_STATUS, []⟩
  match send_dbus_msg d msg 1 with
  | Except.error rc => ⟨rc, [], ["Failed to send status command"], [msg]⟩
  | Except.ok resp =>
    if resp.cmd ≠ DBUS_SUCCESS then
      ⟨-(resp.cmd : Int), [], ["Status command failed"], [msg]⟩
    else
      ⟨-(resp.cmd : Int),
       ["Daemon Status: " ++
         (if resp.args.headD 0 = STATUS_ACTIVE then "Active" else "Suspended")],
       [], [msg]⟩

/-- `handle_cmd_reset` (mboxctl.c:226-244). -/
def handle_cmd_reset (d : Daemon) : CmdOutcome :=
  let msg : MboxDbusMsg := ⟨DBUS_C_RESET, []⟩
  match send_dbus_msg d msg 0 with
  | Except.error rc => ⟨rc, [], ["Failed to send reset command"], [msg]⟩
  | Except.ok resp =>
    ⟨-(resp.cmd : Int), ["Reset: " ++ parse_error (resp.cmd : Int)], [], [msg]⟩

/-- `handle_cmd_suspend` (mboxctl.c:246-264). -/
def handle_cmd_suspend (d : Daemon) : CmdOutcome :=
  let msg : MboxDbusMsg := ⟨DBUS_C_SUSPEND, []⟩
  match send_dbus_msg d msg 0 with
  | Except.error rc => ⟨rc, [], ["Failed to send suspend command"], [msg]⟩
  | Except.ok resp =>
    ⟨-(resp.cmd : Int), ["Suspend: " ++ parse_error (resp.cmd : Int)], [], [msg]⟩

/-- First character of the C string `arg` (`*arg`); the terminating NUL for an
empty string. -/
def cstrFirst (s : String) : Char := s.data.headD (Char.ofNat 0)

/-- The argument guard of `handle_cmd_resume` (mboxctl.c:271), verbatim:
`!arg || *arg != '0' || *arg != '1'`. -/
def resume_guard (arg : Option String) : Bool :=
  match arg with
  | none => true
  | some a => (cstrFirst a != '0') || (cstrFirst a != '1')

/-- `handle_cmd_resume` (mboxctl.c:266-293): when the guard rejects the
argument, return `-E_DBUS_INVAL` without printing or sending anything;
otherwise build a one-byte Resume request (`RESUME_FLASH_MODIFIED` when the
argument starts with the character 1, else `RESUME_NOT_MODIFIED`), send it
expecting no response arguments, and report via the taxonomy. -/
def handle_cmd_resume (d : Daemon) (arg : Option String) : CmdOutcome :=
  if resume_guard arg then
    ⟨-(E_DBUS_INVAL : Int), [], [], []⟩
  else
    let a := arg.getD ""
    let argByte := if cstrFirst a = '1' then RESUME_FLASH_MODIFIED
                   else RESUME_NOT_MODIFIED
    let msg : MboxDbusMsg := ⟨DBUS_C_RESUME, [argByte]⟩
    match send_dbus_msg d msg 0 with
    | Except.error rc => ⟨rc, [], ["Failed to send resume command"], [msg]⟩
    | Except.ok resp =>
      ⟨-(resp.cmd : Int), ["Resume: " ++ parse_error (resp.cmd : Int)], [], [msg]⟩

/-- `handle_cmd_modified` (mboxctl.c:295-314). -/
def handle_cmd_modified (d : Daemon) : CmdOutcome :=
  let msg : MboxDbusMsg := ⟨DBUS_C_MODIFIED, []⟩
  match send_dbus_msg d msg 0 with
  | Except.error rc => ⟨rc, [], ["Failed to send flash modified command"], [msg]⟩
  | Except.ok resp =>
    ⟨-(resp.cmd : Int), ["Flash Modified: " ++ parse_error (resp.cmd : Int)], [], [msg]⟩

/-- `main` (mboxctl.c:374-389) exit-code plumbing: if `init_dbus_dev` fails
(negative `rc` from `sd_bus_default_system`), return that code without running
a command; otherwise return whatever `parse_cmdline` got from the handler. -/
def main_rc (initRc : Int) (cmdRc : Int) : Int :=
  if initRc < 0 then initRc else cmdRc

/-- Bus-handle lifecycle events of one process run. -/
inductive BusEvent where
  | acquired
  | released
  deriving Repr, DecidableEq

/-- Bus-handle events of `main` (mboxctl.c:374-389), in order: on success
`init_dbus_dev` acquires the bus reference via `sd_bus_default_system`
(mboxctl.c:93); on failure no handle is acquired. No call to `sd_bus_unref`
(or any other release of `context.bus`) appears anywhere in mboxctl.c, so no
path emits a release event before the process returns from `main`. -/
def main_bus_trace (initRc : Int) : List BusEvent :=
  if initRc < 0 then [] else [BusEvent.acquired]

/-- One string occurs inside another (printed text containing a phrase). -/
def strContains (s sub : String) : Prop := ∃ pre post, s = pre ++ sub ++ post

/-- Some printed line contains the phrase. -/
def printsContaining (lines : List String) (sub : String) : Prop :=
  ∃ line ∈ lines, strContains line sub

end Mboxctl

namespace Mboxctl

/-- C4: the Error Taxonomy (`parse_error`) is total over all integer status
values: each known value (Success, InternalError, InvalidRequest,
RejectedByDaemon, HardwareError) is mapped to its documented phrase, and every
value outside the known set is mapped to the Unknown-Error phrase rather than
failing. -/
theorem C4_parse_error_total :
    parse_error (DBUS_SUCCESS : Int) = "Success" ∧
    parse_error (E_DBUS_INTERNAL : Int) = "Failed - Internal Error" ∧
    parse_error (E_DBUS_INVAL : Int) = "Failed - Invalid Command or Request" ∧
    parse_error (E_DBUS_REJECTED : Int) = "Failed - Request Rejected by Daemon" ∧
    parse_error (E_DBUS_HARDWARE : Int) = "Failed - BMC Hardware Error" ∧
    ∀ v : Int, v ∉ ([(DBUS_SUCCESS : Int), (E_DBUS_INTERNAL : Int),
        (E_DBUS_INVAL : Int), (E_DBUS_REJECTED : Int),
        (E_DBUS_HARDWARE : Int)] : List Int) →
      parse_error v = "Failed - Unknown Error" := by
  refine ⟨rfl, rfl, rfl, rfl, rfl, ?_⟩
  intro v hv
  simp [DBUS_SUCCESS, E_DBUS_INTERNAL, E_DBUS_INVAL, E_DBUS_REJECTED,
    E_DBUS_HARDWARE, not_or] at hv
  simp [parse_error, DBUS_SUCCESS, E_DBUS_INTERNAL, E_DBUS_INVAL,
    E_DBUS_REJECTED, E_DBUS_HARDWARE, hv.1, hv.2.1, hv.2.2.1, hv.2.2.2.1,
    hv.2.2.2.2]

/-- Witness for C4 at the concrete out-of-set value 99. -/
theorem C4_parse_error_total_witness :
    parse_error (DBUS_SUCCESS : Int) = "Success" ∧
    parse_error 99 = "Failed - Unknown Error" :=
  ⟨C4_parse_error_total.1, C4_parse_error_total.2.2.2.2.2 99 (by decide)⟩

/-- C1: for every declared expected response-argument length n ≥ 1, when the
reply's argument buffer is strictly shorter than n, `send_dbus_msg` fails with
the insufficient-response-arguments protocol error `-E_DBUS_INTERNAL` and
returns no successful response at all. -/
theorem C1_short_reply_protocol_error (d : Daemon) (msg : MboxDbusMsg)
    (n c : Nat) (buf : List Nat)
    (_hn : 1 ≤ n)
    (hreply : d msg = TransportReply.replied c buf)
    (hshort : buf.length < n) :
    send_dbus_msg d msg n = Except.error (-(E_DBUS_INTERNAL : Int)) ∧
    ∀ resp, send_dbus_msg d msg n ≠ Except.ok resp := by
  unfold send_dbus_msg
  rw [hreply]
  simp [hshort]

/-- Witness for C1: a daemon replying with an empty buffer against the Status
command's expected length 1. -/
theorem C1_short_reply_protocol_error_witness :
    send_dbus_msg (fun _ => TransportReply.replied 0 []) ⟨DBUS_C_STATUS, []⟩ 1 =
      Except.error (-(E_DBUS_INTERNAL : Int)) ∧
    ∀ resp, send_dbus_msg (fun _ => TransportReply.replied 0 [])
      ⟨DBUS_C_STATUS, []⟩ 1 ≠ Except.ok resp :=
  C1_short_reply_protocol_error (fun _ => TransportReply.replied 0 [])
    ⟨DBUS_C_STATUS, []⟩ 1 0 [] (by decide) rfl (by decide)

/-- C5: for every reply whose argument buffer is at least as long as the
declared expected length n, `send_dbus_msg` succeeds and copies exactly the
first n bytes of the reply into the caller's response: the copied buffer has
length n, agrees with the reply buffer position by position below n, and the
trailing bytes (`buf.drop n`) are exactly what is left out. -/
theorem C5_copies_exactly_expected (d : Daemon) (msg : MboxDbusMsg)
    (n c : Nat) (buf : List Nat)
    (hreply : d msg = TransportReply.replied c buf)
    (hlong : n ≤ buf.length) :
    send_dbus_msg d msg n = Except.ok ⟨c, buf.take n⟩ ∧
    (buf.take n).length = n ∧
    (∀ i, i < n → (buf.take n)[i]? = buf[i]?) ∧
    buf.take n ++ buf.drop n = buf := by
  unfold send_dbus_msg
  rw [hreply]
  have h2 : ¬ buf.length < n := not_lt.mpr hlong
  refine ⟨by simp [h2], ?_, ?_, ?_⟩
  · simp [List.length_take, Nat.min_eq_left hlong]
  · intro i hi
    simp [List.getElem?_take, hi]
  · exact List.take_append_drop n buf

/-- Witness for C5: an over-long three-byte reply against expected length 1. -/
theorem C5_copies_exactly_expected_witness :
    send_dbus_msg (fun _ => TransportReply.replied 0 [7, 8, 9])
      ⟨DBUS_C_STATUS, []⟩ 1 = Except.ok ⟨0, [7]⟩ ∧
    ([7, 8, 9] : List Nat).take 1 ++ ([7, 8, 9] : List Nat).drop 1 = [7, 8, 9] := by
  have h := C5_copies_exactly_expected (fun _ => TransportReply.replied 0 [7, 8, 9])
    ⟨DBUS_C_STATUS, []⟩ 1 0 [7, 8, 9] rfl (by decide)
  exact ⟨h.1, h.2.2.2⟩

end Mboxctl

namespace Mboxctl

/-- The disjunctive argument guard of `handle_cmd_resume` is true for every
argument, the literals 0 and 1 included: no first character can be equal to
both characters at once. -/
theorem resume_guard_true (arg : Option String) : resume_guard arg = true := by
  cases arg with
  | none => rfl
  | some a =>
    rcases eq_or_ne (cstrFirst a) '0' with h | h
    · simp only [resume_guard, h]
      decide
    · simp [resume_guard, bne_iff_ne, h]

/-- C2: for every input other than the literal 0 or 1 strings (and for a null
argument), `handle_cmd_resume` fails with `-E_DBUS_INVAL` and transmits no
request to the daemon (and prints nothing). -/
theorem C2_resume_rejects_invalid (d : Daemon) (arg : Option String)
    (_h : arg = none ∨ ∃ a, arg = some a ∧ a ≠ "0" ∧ a ≠ "1") :
    (handle_cmd_resume d arg).rc = -(E_DBUS_INVAL : Int) ∧
    (handle_cmd_resume d arg).sent = [] ∧
    (handle_cmd_resume d arg).stdout = [] := by
  have hg := resume_guard_true arg
  simp [handle_cmd_resume, hg]

/-- Witness for C2 at the invalid argument string 2. -/
theorem C2_resume_rejects_invalid_witness :
    (handle_cmd_resume (fun _ => TransportReply.failed (-1)) (some "2")).rc =
      -(E_DBUS_INVAL : Int) ∧
    (handle_cmd_resume (fun _ => TransportReply.failed (-1)) (some "2")).sent = [] ∧
    (handle_cmd_resume (fun _ => TransportReply.failed (-1)) (some "2")).stdout = [] :=
  C2_resume_rejects_invalid (fun _ => TransportReply.failed (-1)) (some "2")
    (Or.inr ⟨"2", rfl, by decide, by decide⟩)

/-- C3: for every argument string, the literals 0 and 1 included, the guard
`!arg || *arg != '0' || *arg != '1'` evaluates to true, so `handle_cmd_resume`
returns `-E_DBUS_INVAL` and never hands a request to the RPC exchange: no
Resume request can ever be transmitted by this client. -/
theorem C3_resume_always_rejects (d : Daemon) (arg : Option String) :
    resume_guard arg = true ∧
    (handle_cmd_resume d arg).rc = -(E_DBUS_INVAL : Int) ∧
    (handle_cmd_resume d arg).sent = [] := by
  have hg := resume_guard_true arg
  refine ⟨hg, ?_, ?_⟩ <;> simp [handle_cmd_resume, hg]

/-- C7: evaluation of `handle_cmd_resume` at the literal argument string 1
against a daemon that would reply RejectedByDaemon: the handler returns
`-E_DBUS_INVAL`, transmits nothing, and prints nothing — the Resume request
with arguments `[RESUME_FLASH_MODIFIED]` claimed by the spec is never sent,
contradicting the program's own usage text for the resume command. -/
theorem C7_resume_one_never_sent :
    (handle_cmd_resume
      (fun _ => TransportReply.replied E_DBUS_REJECTED []) (some "1")).sent = [] ∧
    (handle_cmd_resume
      (fun _ => TransportReply.replied E_DBUS_REJECTED []) (some "1")).rc =
        -(E_DBUS_INVAL : Int) ∧
    (handle_cmd_resume
      (fun _ => TransportReply.replied E_DBUS_REJECTED []) (some "1")).rc ≠
        -(E_DBUS_REJECTED : Int) ∧
    (handle_cmd_resume
      (fun _ => TransportReply.replied E_DBUS_REJECTED []) (some "1")).stdout = [] := by
  refine ⟨rfl, rfl, by decide, rfl⟩

end Mboxctl

namespace Mboxctl

/-- C6: against a daemon that replies {status=Success, arguments=[0]}, the
Status command yields exit code 0 (both the handler `rc` and `main`'s return
when init succeeded) and prints a line containing Active; against a daemon
that replies {status=Success, arguments=[1]} it prints a line containing
Suspended. -/
theorem C6_status_active_and_suspended (d0 d1 : Daemon)
    (h0 : d0 ⟨DBUS_C_STATUS, []⟩ =
      TransportReply.replied DBUS_SUCCESS [STATUS_ACTIVE])
    (h1 : d1 ⟨DBUS_C_STATUS, []⟩ =
      TransportReply.replied DBUS_SUCCESS [STATUS_SUSPENDED]) :
    ((handle_cmd_status d0).rc = 0 ∧
      main_rc 0 (handle_cmd_status d0).rc = 0 ∧
      printsContaining (handle_cmd_status d0).stdout "Active") ∧
    printsContaining (handle_cmd_status d1).stdout "Suspended" := by
  have e0 : (handle_cmd_status d0).stdout = ["Daemon Status: Active"] ∧
      (handle_cmd_status d0).rc = 0 := by
    constructor <;>
      simp [handle_cmd_status, send_dbus_msg, h0, DBUS_SUCCESS, STATUS_ACTIVE]
  have e1 : (handle_cmd_status d1).stdout = ["Daemon Status: Suspended"] := by
    simp [handle_cmd_status, send_dbus_msg, h1, DBUS_SUCCESS, STATUS_ACTIVE,
      STATUS_SUSPENDED]
  refine ⟨⟨e0.2, by simp [main_rc, e0.2], ?_⟩, ?_⟩
  · unfold printsContaining strContains
    exact ⟨"Daemon Status: Active", by simp [e0.1], "Daemon Status: ", "", rfl⟩
  · unfold printsContaining strContains
    exact ⟨"Daemon Status: Suspended", by simp [e1], "Daemon Status: ", "", rfl⟩

/-- Witness for C6 with concrete daemons replying [0] and [1]. -/
theorem C6_status_active_and_suspended_witness :
    ((handle_cmd_status
        (fun _ => TransportReply.replied DBUS_SUCCESS [STATUS_ACTIVE])).rc = 0 ∧
      main_rc 0 (handle_cmd_status
        (fun _ => TransportReply.replied DBUS_SUCCESS [STATUS_ACTIVE])).rc = 0 ∧
      printsContaining (handle_cmd_status
        (fun _ => TransportReply.replied DBUS_SUCCESS [STATUS_ACTIVE])).stdout
        "Active") ∧
    printsContaining (handle_cmd_status
      (fun _ => TransportReply.replied DBUS_SUCCESS [STATUS_SUSPENDED])).stdout
      "Suspended" :=
  C6_status_active_and_suspended
    (fun _ => TransportReply.replied DBUS_SUCCESS [STATUS_ACTIVE])
    (fun _ => TransportReply.replied DBUS_SUCCESS [STATUS_SUSPENDED]) rfl rfl

/-- C10: when the Status exchange succeeds with status=Success, every payload
byte other than the Active encoding 0 is reported as Suspended (the printed
line is exactly the Suspended line, stderr stays empty, and the Suspended
phrase appears); no payload value is reported as invalid. -/
theorem C10_nonactive_prints_suspended (d : Daemon) (b : Nat)
    (hreply : d ⟨DBUS_C_STATUS, []⟩ = TransportReply.replied DBUS_SUCCESS [b])
    (hb : b ≠ STATUS_ACTIVE) :
    (handle_cmd_status d).stdout = ["Daemon Status: Suspended"] ∧
    (handle_cmd_status d).stderr = [] ∧
    printsContaining (handle_cmd_status d).stdout "Suspended" := by
  have hb0 : b ≠ 0 := by simpa [STATUS_ACTIVE] using hb
  have e : (handle_cmd_status d).stdout = ["Daemon Status: Suspended"] ∧
      (handle_cmd_status d).stderr = [] := by
    constructor <;>
      simp [handle_cmd_status, send_dbus_msg, hreply, DBUS_SUCCESS,
        STATUS_ACTIVE, hb0]
  refine ⟨e.1, e.2, ?_⟩
  unfold printsContaining strContains
  exact ⟨"Daemon Status: Suspended", by simp [e.1], "Daemon Status: ", "", rfl⟩

/-- Witness for C10 at the undocumented payload byte 7. -/
theorem C10_nonactive_prints_suspended_witness :
    (handle_cmd_status
      (fun _ => TransportReply.replied DBUS_SUCCESS [7])).stdout =
        ["Daemon Status: Suspended"] ∧
    (handle_cmd_status
      (fun _ => TransportReply.replied DBUS_SUCCESS [7])).stderr = [] ∧
    printsContaining (handle_cmd_status
      (fun _ => TransportReply.replied DBUS_SUCCESS [7])).stdout "Suspended" :=
  C10_nonactive_prints_suspended
    (fun _ => TransportReply.replied DBUS_SUCCESS [7]) 7 rfl (by decide)

/-- C8: the exit-code policy, for every command invocation. For each command
whose invocation reaches the daemon (the transport delivers a reply with
status byte c, long enough to carry the command's expected payload), the
handler `rc` is `-c`, which is 0 exactly when the daemon returned Success;
this holds for Ping, Status, Reset, Suspend and Flash-Modified. When the call
never reaches the daemon the exit code is a client-local negative code: a
transport failure's negative code for the five sendable commands, and
`-E_DBUS_INVAL` for Resume, which its guard stops before any request is
transmitted. `main` returns the negative init code when `init_dbus_dev`
fails, and otherwise passes the handler `rc` through unchanged. -/
theorem C8_exit_code_policy (d : Daemon) :
    (∀ c buf, d ⟨DBUS_C_PING, []⟩ = TransportReply.replied c buf →
      (handle_cmd_ping d).rc = -(c : Int) ∧
      ((handle_cmd_ping d).rc = 0 ↔ c = DBUS_SUCCESS)) ∧
    (∀ c buf, 1 ≤ buf.length →
      d ⟨DBUS_C_STATUS, []⟩ = TransportReply.replied c buf →
      (handle_cmd_status d).rc = -(c : Int) ∧
      ((handle_cmd_status d).rc = 0 ↔ c = DBUS_SUCCESS)) ∧
    (∀ c buf, d ⟨DBUS_C_RESET, []⟩ = TransportReply.replied c buf →
      (handle_cmd_reset d).rc = -(c : Int) ∧
      ((handle_cmd_reset d).rc = 0 ↔ c = DBUS_SUCCESS)) ∧
    (∀ c buf, d ⟨DBUS_C_SUSPEND, []⟩ = TransportReply.replied c buf →
      (handle_cmd_suspend d).rc = -(c : Int) ∧
      ((handle_cmd_suspend d).rc = 0 ↔ c = DBUS_SUCCESS)) ∧
    (∀ c buf, d ⟨DBUS_C_MODIFIED, []⟩ = TransportReply.replied c buf →
      (handle_cmd_modified d).rc = -(c : Int) ∧
      ((handle_cmd_modified d).rc = 0 ↔ c = DBUS_SUCCESS)) ∧
    (∀ rcFail : Int, rcFail < 0 →
      d ⟨DBUS_C_PING, []⟩ = TransportReply.failed rcFail →
      (handle_cmd_ping d).rc = rcFail ∧ (handle_cmd_ping d).rc < 0) ∧
    (∀ rcFail : Int, rcFail < 0 →
      d ⟨DBUS_C_STATUS, []⟩ = TransportReply.failed rcFail →
      (handle_cmd_status d).rc = rcFail ∧ (handle_cmd_status d).rc < 0) ∧
    (∀ rcFail : Int, rcFail < 0 →
      d ⟨DBUS_C_RESET, []⟩ = TransportReply.failed rcFail →
      (handle_cmd_reset d).rc = rcFail ∧ (handle_cmd_reset d).rc < 0) ∧
    (∀ rcFail : Int, rcFail < 0 →
      d ⟨DBUS_C_SUSPEND, []⟩ = TransportReply.failed rcFail →
      (handle_cmd_suspend d).rc = rcFail ∧ (handle_cmd_suspend d).rc < 0) ∧
    (∀ rcFail : Int, rcFail < 0 →
      d ⟨DBUS_C_MODIFIED, []⟩ = TransportReply.failed rcFail →
      (handle_cmd_modified d).rc = rcFail ∧ (handle_cmd_modified d).rc < 0) ∧
    (∀ arg, (handle_cmd_resume d arg).sent = [] ∧
      (handle_cmd_resume d arg).rc = -(E_DBUS_INVAL : Int) ∧
      (handle_cmd_resume d arg).rc < 0) ∧
    (∀ initRc cmdRc : Int, initRc < 0 →
      main_rc initRc cmdRc = initRc ∧ main_rc initRc cmdRc < 0) ∧
    (∀ initRc cmdRc : Int, 0 ≤ initRc → main_rc initRc cmdRc = cmdRc) := by
  refine ⟨?_, ?_, ?_, ?_, ?_, ?_, ?_, ?_, ?_, ?_, ?_, ?_, ?_⟩
  · intro c buf hreply
    have h : (handle_cmd_ping d).rc = -(c : Int) := by
      simp [handle_cmd_ping, send_dbus_msg, hreply]
    refine ⟨h, ?_⟩
    rw [h]
    simp [DBUS_SUCCESS]
  · intro c buf hlen hreply
    have hnot : ¬ buf.length < 1 := not_lt.mpr hlen
    have h : (handle_cmd_status d).rc = -(c : Int) := by
      rcases eq_or_ne c DBUS_SUCCESS with hc | hc
      · subst hc
        simp [handle_cmd_status, send_dbus_msg, hreply, hnot, DBUS_SUCCESS]
      · simp [handle_cmd_status, send_dbus_msg, hreply, hnot, hc]
    refine ⟨h, ?_⟩
    rw [h]
    simp [DBUS_SUCCESS]
  · intro c buf hreply
    have h : (handle_cmd_reset d).rc = -(c : Int) := by
      simp [handle_cmd_reset, send_dbus_msg, hreply]
    refine ⟨h, ?_⟩
    rw [h]
    simp [DBUS_SUCCESS]
  · intro c buf hreply
    have h : (handle_cmd_suspend d).rc = -(c : Int) := by
      simp [handle_cmd_suspend, send_dbus_msg, hreply]
    refine ⟨h, ?_⟩
    rw [h]
    simp [DBUS_SUCCESS]
  · intro c buf hreply
    have h : (handle_cmd_modified d).rc = -(c : Int) := by
      simp [handle_cmd_modified, send_dbus_msg, hreply]
    refine ⟨h, ?_⟩
    rw [h]
    simp [DBUS_SUCCESS]
  · intro rcFail hneg hfail
    constructor <;> simp [handle_cmd_ping, send_dbus_msg, hfail, hneg]
  · intro rcFail hneg hfail
    constructor <;> simp [handle_cmd_status, send_dbus_msg, hfail, hneg]
  · intro rcFail hneg hfail
    constructor <;> simp [handle_cmd_reset, send_dbus_msg, hfail, hneg]
  · intro rcFail hneg hfail
    constructor <;> simp [handle_cmd_suspend, send_dbus_msg, hfail, hneg]
  · intro rcFail hneg hfail
    constructor <;> simp [handle_cmd_modified, send_dbus_msg, hfail, hneg]
  · intro arg
    have hg := resume_guard_true arg
    refine ⟨by simp [handle_cmd_resume, hg], by simp [handle_cmd_resume, hg], ?_⟩
    simp [handle_cmd_resume, hg, E_DBUS_INVAL]
  · intro initRc cmdRc hI
    constructor <;> simp [main_rc, hI]
  · intro initRc cmdRc hI
    simp [main_rc, not_lt.mpr hI]

/-- Witness for C8: one daemon that replies with status 3 and a one-byte
buffer for every request, one whose transport fails with -5, a Resume
invocation with argument string 1, an init failure code -7, and a
pass-through run. -/
theorem C8_exit_code_policy_witness :
    (handle_cmd_ping (fun _ => TransportReply.replied 3 [9])).rc =
      -((3 : Nat) : Int) ∧
    (handle_cmd_status (fun _ => TransportReply.replied 3 [9])).rc =
      -((3 : Nat) : Int) ∧
    (handle_cmd_reset (fun _ => TransportReply.replied 3 [9])).rc =
      -((3 : Nat) : Int) ∧
    (handle_cmd_suspend (fun _ => TransportReply.replied 3 [9])).rc =
      -((3 : Nat) : Int) ∧
    (handle_cmd_modified (fun _ => TransportReply.replied 3 [9])).rc =
      -((3 : Nat) : Int) ∧
    (handle_cmd_ping (fun _ => TransportReply.failed (-5))).rc = -5 ∧
    (handle_cmd_status (fun _ => TransportReply.failed (-5))).rc = -5 ∧
    (handle_cmd_reset (fun _ => TransportReply.failed (-5))).rc = -5 ∧
    (handle_cmd_suspend (fun _ => TransportReply.failed (-5))).rc = -5 ∧
    (handle_cmd_modified (fun _ => TransportReply.failed (-5))).rc < 0 ∧
    (handle_cmd_resume (fun _ => TransportReply.failed (-5)) (some "1")).rc < 0 ∧
    main_rc (-7) 0 = -7 ∧ main_rc 2 (-4) = -4 := by
  have hW := C8_exit_code_policy (fun _ => TransportReply.replied 3 [9])
  have hF := C8_exit_code_policy (fun _ => TransportReply.failed (-5))
  obtain ⟨p1, s1, r1, u1, m1, -, -, -, -, -, -, -, -⟩ := hW
  obtain ⟨-, -, -, -, -, pf, sf, rf, uf, mf, res, mn1, mn2⟩ := hF
  exact ⟨(p1 3 [9] rfl).1, (s1 3 [9] (by decide) rfl).1, (r1 3 [9] rfl).1,
    (u1 3 [9] rfl).1, (m1 3 [9] rfl).1,
    (pf (-5) (by decide) rfl).1, (sf (-5) (by decide) rfl).1,
    (rf (-5) (by decide) rfl).1, (uf (-5) (by decide) rfl).1,
    (mf (-5) (by decide) rfl).2, (res (some "1")).2.2,
    (mn1 (-7) 0 (by decide)).1, mn2 2 (-4) (by decide)⟩

/-- C9 counterexample: on the concrete success path (init code 0) the run
acquires the bus handle and exits without ever emitting a release: the claim
that the handle is released before process exit on every path is false on this
code, which contains no `sd_bus_unref` at all. -/
theorem C9_counterexample_no_release :
    BusEvent.acquired ∈ main_bus_trace 0 ∧
    BusEvent.released ∉ main_bus_trace 0 := by
  decide

/-- C9 (amended): the client never explicitly releases the bus handle on any
path; every run whose init succeeded ends still holding the acquired handle,
release being left to process teardown. -/
theorem C9_bus_never_released (initRc : Int) :
    BusEvent.released ∉ main_bus_trace initRc ∧
    (0 ≤ initRc → main_bus_trace initRc = [BusEvent.acquired]) := by
  unfold main_bus_trace
  rcases lt_or_le initRc 0 with h | h
  · refine ⟨by simp [h], ?_⟩
    intro h2
    exact absurd h2 (not_le.mpr h)
  · refine ⟨by simp [not_lt.mpr h], ?_⟩
    intro _
    simp [not_lt.mpr h]

/-- Witness for C9 (amended) at the concrete successful init code 2. -/
theorem C9_bus_never_released_witness :
    BusEvent.released ∉ main_bus_trace 2 ∧
    main_bus_trace 2 = [BusEvent.acquired] :=
  ⟨(C9_bus_never_released 2).1, (C9_bus_never_released 2).2 (by decide)⟩

end Mboxctl
